import Mathlib

/-!
Shallow embedding of the Arbetsförmedlingen MCP server's shared HTTP access
layer (`src/services/apiClient.ts`) and of the taxonomy tool handlers
(`src/tools/taxonomyExtended.ts`) together with the output-truncation helper
(`truncateIfNeeded` in the formatters module).

The network itself (the platform `fetch`) is modelled as a function from
attempt index to the attempt's outcome: an HTTP response with a status code,
an abort (the 10-second cancellation signal tripped), or a transport-level
failure.  JavaScript strings appearing in the formatting layer are modelled
as `List Char`.
-/

namespace AfMcp

/-- Outcome of one network attempt, as observed by the `try` block of
`fetchJson`/`postJson`: an HTTP response (status, statusText, body), an
abort of the cancellation signal (`AbortError`), or another transport
failure rethrown unchanged. -/
inductive NetResponse where
  | http (status : Nat) (statusText : String) (body : String)
  | abort
  | netError (msg : String)
deriving Repr, DecidableEq

/-- The `ApiError` class of `apiClient.ts`: a message plus optional
`statusCode` and `endpoint` fields. -/
structure ApiError where
  message : String
  statusCode : Option Nat
  endpoint : Option String
deriving Repr, DecidableEq

/-- Result of a call to `fetchJson`/`postJson`: resolved JSON body, a thrown
`ApiError`, or a rethrown transport error. -/
inductive FetchOutcome where
  | ok (body : String)
  | apiError (e : ApiError)
  | transportError (msg : String)
deriving Repr, DecidableEq

/-- Observable trace of one logical `fetchJson`/`postJson` call: how many
network attempts were made, the successive inter-attempt backoff delays
(in milliseconds, as JS numbers), and the final outcome. -/
structure FetchTrace where
  attempts : Nat
  delays : List Rat
  outcome : FetchOutcome
deriving Repr, DecidableEq

/-- The timeout handed to `setTimeout(() => controller.abort(), 10_000)`. -/
def timeoutMs : Nat := 10000

/-- Message of the 429 error thrown by both `fetchJson` and `postJson`. -/
def rateLimitMsg : String := "Rate limit reached – please try again shortly"

/-- Message of the timeout error (`Timeout after 10s for ${url}`). -/
def timeoutMsg (url : String) : String := "Timeout after 10s for " ++ url

/-- The `Math.pow(2, e) * 1000` for an integer exponent, as an exact rational
(the backoff-delay expression of `postJson`). -/
def pow2BackoffMs (e : Int) : Rat :=
  if 0 ≤ e then mkRat (2 ^ e.toNat * 1000) 1 else mkRat 1000 (2 ^ (-e).toNat)

/-- The `fetchJson<T>(url, retries)` from `apiClient.ts`, with the network
modelled by `net : Nat → NetResponse` (outcome of the n-th attempt overall)
and `attempt` the index of the current attempt.  Mirrors the source order:
AbortError → Timeout ApiError; 429 → RateLimited ApiError (no retry);
status ≥ 500 with retries left → wait `(4 - retries) * 1000` ms and recurse
with `retries - 1`; any other non-2xx → ApiError with the status; else
resolve with the body. -/
def fetchJson (net : Nat → NetResponse) (url : String) :
    Nat → Nat → FetchTrace
  | retries, attempt =>
    match net attempt with
    | NetResponse.abort =>
        ⟨1, [], FetchOutcome.apiError ⟨timeoutMsg url, some 0, some url⟩⟩
    | NetResponse.netError m => ⟨1, [], FetchOutcome.transportError m⟩
    | NetResponse.http status statusText body =>
        if status = 429 then
          ⟨1, [], FetchOutcome.apiError ⟨rateLimitMsg, some 429, some url⟩⟩
        else if 500 ≤ status then
          match retries with
          | r + 1 =>
              let delay : Rat := mkRat ((4 - ((r : Int) + 1)) * 1000) 1
              let rest := fetchJson net url r (attempt + 1)
              ⟨rest.attempts + 1, delay :: rest.delays, rest.outcome⟩
          | 0 =>
              ⟨1, [], FetchOutcome.apiError
                ⟨"API request failed: " ++ toString status ++ " " ++ statusText,
                  some status, some url⟩⟩
        else if ¬ (200 ≤ status ∧ status < 300) then
          ⟨1, [], FetchOutcome.apiError
            ⟨"API request failed: " ++ toString status ++ " " ++ statusText,
              some status, some url⟩⟩
        else
          ⟨1, [], FetchOutcome.ok body⟩

/-- The `postJson<T>(url, body, retries)` from `apiClient.ts`.  Identical retry
structure to `fetchJson` except the backoff delay is
`Math.pow(2, 3 - retries) * 1000` ms and the error message prefix differs. -/
def postJson (net : Nat → NetResponse) (url : String) :
    Nat → Nat → FetchTrace
  | retries, attempt =>
    match net attempt with
    | NetResponse.abort =>
        ⟨1, [], FetchOutcome.apiError ⟨timeoutMsg url, some 0, some url⟩⟩
    | NetResponse.netError m => ⟨1, [], FetchOutcome.transportError m⟩
    | NetResponse.http status statusText body =>
        if status = 429 then
          ⟨1, [], FetchOutcome.apiError ⟨rateLimitMsg, some 429, some url⟩⟩
        else if 500 ≤ status then
          match retries with
          | r + 1 =>
              let delay : Rat := pow2BackoffMs (3 - ((r : Int) + 1))
              let rest := postJson net url r (attempt + 1)
              ⟨rest.attempts + 1, delay :: rest.delays, rest.outcome⟩
          | 0 =>
              ⟨1, [], FetchOutcome.apiError
                ⟨"POST API request failed: " ++ toString status ++ " " ++ statusText,
                  some status, some url⟩⟩
        else if ¬ (200 ≤ status ∧ status < 300) then
          ⟨1, [], FetchOutcome.apiError
            ⟨"POST API request failed: " ++ toString status ++ " " ++ statusText,
              some status, some url⟩⟩
        else
          ⟨1, [], FetchOutcome.ok body⟩

/-- One retrying step of `fetchJson`: a ≥ 500 response with retries left
prepends the linear backoff delay `(4 - retries) * 1000` ms and recurses. -/
theorem fetchJson_step_server (net : Nat → NetResponse) (url : String)
    (r attempt s : Nat) (t b : String)
    (hnet : net attempt = NetResponse.http s t b) (hs : 500 ≤ s) :
    fetchJson net url (r + 1) attempt =
      ⟨(fetchJson net url r (attempt + 1)).attempts + 1,
        mkRat ((4 - ((r : Int) + 1)) * 1000) 1 ::
          (fetchJson net url r (attempt + 1)).delays,
        (fetchJson net url r (attempt + 1)).outcome⟩ := by
  have h429 : ¬ (s = 429) := by omega
  conv_lhs => rw [fetchJson]
  simp only [hnet]
  rw [if_neg h429, if_pos hs]

/-- The `fetchJson` with an exhausted retry budget turns a ≥ 500 response into
an `ApiError` carrying the status and the URL. -/
theorem fetchJson_exhausted (net : Nat → NetResponse) (url : String)
    (attempt s : Nat) (t b : String)
    (hnet : net attempt = NetResponse.http s t b) (hs : 500 ≤ s) :
    fetchJson net url 0 attempt =
      ⟨1, [], FetchOutcome.apiError
        ⟨"API request failed: " ++ toString s ++ " " ++ t, some s, some url⟩⟩ := by
  have h429 : ¬ (s = 429) := by omega
  conv_lhs => rw [fetchJson]
  simp only [hnet]
  rw [if_neg h429, if_pos hs]

/-- One retrying step of `postJson`: a ≥ 500 response with retries left
prepends the exponential backoff delay `2^(3 - retries) * 1000` ms. -/
theorem postJson_step_server (net : Nat → NetResponse) (url : String)
    (r attempt s : Nat) (t b : String)
    (hnet : net attempt = NetResponse.http s t b) (hs : 500 ≤ s) :
    postJson net url (r + 1) attempt =
      ⟨(postJson net url r (attempt + 1)).attempts + 1,
        pow2BackoffMs (3 - ((r : Int) + 1)) ::
          (postJson net url r (attempt + 1)).delays,
        (postJson net url r (attempt + 1)).outcome⟩ := by
  have h429 : ¬ (s = 429) := by omega
  conv_lhs => rw [postJson]
  simp only [hnet]
  rw [if_neg h429, if_pos hs]

/-- The `postJson` with an exhausted retry budget turns a ≥ 500 response into
an `ApiError` carrying the status and the URL. -/
theorem postJson_exhausted (net : Nat → NetResponse) (url : String)
    (attempt s : Nat) (t b : String)
    (hnet : net attempt = NetResponse.http s t b) (hs : 500 ≤ s) :
    postJson net url 0 attempt =
      ⟨1, [], FetchOutcome.apiError
        ⟨"POST API request failed: " ++ toString s ++ " " ++ t, some s, some url⟩⟩ := by
  have h429 : ¬ (s = 429) := by omega
  conv_lhs => rw [postJson]
  simp only [hnet]
  rw [if_neg h429, if_pos hs]

/-- A tripped cancellation signal (AbortError) makes `fetchJson` fail at
once with the Timeout `ApiError` (statusCode 0, endpoint the URL). -/
theorem fetchJson_abort (net : Nat → NetResponse) (url : String)
    (retries attempt : Nat) (hnet : net attempt = NetResponse.abort) :
    fetchJson net url retries attempt =
      ⟨1, [], FetchOutcome.apiError ⟨timeoutMsg url, some 0, some url⟩⟩ := by
  conv_lhs => rw [fetchJson]
  simp [hnet]

/-- A tripped cancellation signal (AbortError) makes `postJson` fail at
once with the Timeout `ApiError` (statusCode 0, endpoint the URL). -/
theorem postJson_abort (net : Nat → NetResponse) (url : String)
    (retries attempt : Nat) (hnet : net attempt = NetResponse.abort) :
    postJson net url retries attempt =
      ⟨1, [], FetchOutcome.apiError ⟨timeoutMsg url, some 0, some url⟩⟩ := by
  conv_lhs => rw [postJson]
  simp [hnet]

/-- A 429 response makes `fetchJson` fail at once with the RateLimited
`ApiError`, with exactly one attempt and no backoff. -/
theorem fetchJson_rateLimited (net : Nat → NetResponse) (url : String)
    (retries attempt : Nat) (t b : String)
    (hnet : net attempt = NetResponse.http 429 t b) :
    fetchJson net url retries attempt =
      ⟨1, [], FetchOutcome.apiError ⟨rateLimitMsg, some 429, some url⟩⟩ := by
  conv_lhs => rw [fetchJson]
  simp [hnet]

/-- A 429 response makes `postJson` fail at once with the RateLimited
`ApiError`, with exactly one attempt and no backoff. -/
theorem postJson_rateLimited (net : Nat → NetResponse) (url : String)
    (retries attempt : Nat) (t b : String)
    (hnet : net attempt = NetResponse.http 429 t b) :
    postJson net url retries attempt =
      ⟨1, [], FetchOutcome.apiError ⟨rateLimitMsg, some 429, some url⟩⟩ := by
  conv_lhs => rw [postJson]
  simp [hnet]

/-- If every HTTP response in a run of `fetchJson` carries a real status
(≥ 100), then an `ApiError` outcome with `statusCode = some 0` can only
stem from a tripped abort signal. -/
theorem fetchJson_statusZero_means_abort (net : Nat → NetResponse)
    (url : String) (retries attempt : Nat)
    (H : ∀ n s t b, net n = NetResponse.http s t b → 100 ≤ s) (e : ApiError)
    (hout : (fetchJson net url retries attempt).outcome = FetchOutcome.apiError e)
    (h0 : e.statusCode = some 0) : ∃ n, net n = NetResponse.abort := by
  induction retries generalizing attempt with
  | zero =>
      cases hn : net attempt with
      | abort => exact ⟨attempt, hn⟩
      | netError m =>
          rw [fetchJson] at hout
          simp [hn] at hout
      | http s t b =>
          have hs : 100 ≤ s := H attempt s t b hn
          rw [fetchJson] at hout
          simp only [hn] at hout
          by_cases h429 : s = 429
          · rw [if_pos h429] at hout
            simp at hout
            subst hout
            simp at h0
          · rw [if_neg h429] at hout
            by_cases h500 : 500 ≤ s
            · rw [if_pos h500] at hout
              simp at hout
              subst hout
              simp at h0
              omega
            · rw [if_neg h500] at hout
              by_cases hok : 200 ≤ s ∧ s < 300
              · rw [if_neg (by simpa using hok)] at hout
                simp at hout
              · rw [if_pos (by simpa using hok)] at hout
                simp at hout
                subst hout
                simp at h0
                omega
  | succ r ih =>
      cases hn : net attempt with
      | abort => exact ⟨attempt, hn⟩
      | netError m =>
          rw [fetchJson] at hout
          simp [hn] at hout
      | http s t b =>
          have hs : 100 ≤ s := H attempt s t b hn
          rw [fetchJson] at hout
          simp only [hn] at hout
          by_cases h429 : s = 429
          · rw [if_pos h429] at hout
            simp at hout
            subst hout
            simp at h0
          · rw [if_neg h429] at hout
            by_cases h500 : 500 ≤ s
            · rw [if_pos h500] at hout
              exact ih (attempt + 1) hout
            · rw [if_neg h500] at hout
              by_cases hok : 200 ≤ s ∧ s < 300
              · rw [if_neg (by simpa using hok)] at hout
                simp at hout
              · rw [if_pos (by simpa using hok)] at hout
                simp at hout
                subst hout
                simp at h0
                omega

/-- Claim `C1` (counterexample): with `retries = 4` against a permanently-500
upstream, `fetchJson` performs 5 attempts, not `min (1 + 4) 4 = 4`: the code
imposes no cap of 4 attempts for retry budgets above the default. -/
theorem fetchJson_attempt_cap_counterexample :
    (fetchJson (fun _ => NetResponse.http 500 "Internal Server Error" "")
        "https://example.com" 4 0).attempts = 5 ∧
    min (1 + 4) 4 = 4 ∧ ¬ (5 = min (1 + 4) 4) := by
  decide

/-- Claim `C1` (amended): for every URL whose every response has status ≥ 500,
`fetchJson url retries` performs exactly `1 + retries` network attempts
(which equals `min (1 + retries) 4` for every `retries ≤ 3`, in particular
4 attempts for the default budget of 3) and then fails with an `ApiError`
carrying a ≥ 500 status and the URL. -/
theorem fetchJson_serverErr_attempts (net : Nat → NetResponse) (url : String)
    (retries attempt : Nat)
    (H : ∀ n, ∃ s t b, net n = NetResponse.http s t b ∧ 500 ≤ s) :
    (fetchJson net url retries attempt).attempts = 1 + retries ∧
    (retries ≤ 3 → 1 + retries = min (1 + retries) 4) ∧
    (∃ s t, 500 ≤ s ∧
      (fetchJson net url retries attempt).outcome =
        FetchOutcome.apiError
          ⟨"API request failed: " ++ toString s ++ " " ++ t, some s, some url⟩) := by
  refine ⟨?_, fun h => by omega, ?_⟩
  · induction retries generalizing attempt with
    | zero =>
        obtain ⟨s, t, b, hnet, hs⟩ := H attempt
        rw [fetchJson_exhausted net url attempt s t b hnet hs]
    | succ r ih =>
        obtain ⟨s, t, b, hnet, hs⟩ := H attempt
        rw [fetchJson_step_server net url r attempt s t b hnet hs]
        have h := ih (attempt + 1)
        show (fetchJson net url r (attempt + 1)).attempts + 1 = 1 + (r + 1)
        omega
  · induction retries generalizing attempt with
    | zero =>
        obtain ⟨s, t, b, hnet, hs⟩ := H attempt
        rw [fetchJson_exhausted net url attempt s t b hnet hs]
        exact ⟨s, t, hs, rfl⟩
    | succ r ih =>
        obtain ⟨s, t, b, hnet, hs⟩ := H attempt
        rw [fetchJson_step_server net url r attempt s t b hnet hs]
        exact ih (attempt + 1)

/-- Claim `C1` (witness): against a permanently-503 upstream with the default
budget of 3, `fetchJson` makes 4 attempts and fails with the 503 error. -/
theorem fetchJson_serverErr_attempts_witness :
    (fetchJson (fun _ => NetResponse.http 503 "Service Unavailable" "")
        "https://u" 3 0).attempts = 1 + 3 ∧
    (3 ≤ 3 → 1 + 3 = min (1 + 3) 4) ∧
    (∃ s t, 500 ≤ s ∧
      (fetchJson (fun _ => NetResponse.http 503 "Service Unavailable" "")
          "https://u" 3 0).outcome =
        FetchOutcome.apiError
          ⟨"API request failed: " ++ toString s ++ " " ++ t, some s,
            some "https://u"⟩) :=
  fetchJson_serverErr_attempts _ "https://u" 3 0
    (fun _ => ⟨503, "Service Unavailable", "", rfl, by omega⟩)

/-- Claim `C2`: retrying on ≥ 500 responses with the default budget of 3,
`fetchJson` waits 1000 ms, 2000 ms, 3000 ms between successive attempts
(linear, `(4 - retries) * 1000`), while `postJson` waits 1000 ms, 2000 ms,
4000 ms (exponential, `2^(3 - retries) * 1000`). -/
theorem backoff_delays_default (net : Nat → NetResponse) (url : String)
    (H : ∀ n, ∃ s t b, net n = NetResponse.http s t b ∧ 500 ≤ s) :
    (fetchJson net url 3 0).delays = [1000, 2000, 3000] ∧
    (postJson net url 3 0).delays = [1000, 2000, 4000] := by
  obtain ⟨s0, t0, b0, h0, hs0⟩ := H 0
  obtain ⟨s1, t1, b1, h1, hs1⟩ := H 1
  obtain ⟨s2, t2, b2, h2, hs2⟩ := H 2
  obtain ⟨s3, t3, b3, h3, hs3⟩ := H 3
  constructor
  · rw [fetchJson_step_server net url 2 0 s0 t0 b0 h0 hs0]
    dsimp only
    rw [fetchJson_step_server net url 1 1 s1 t1 b1 h1 hs1]
    dsimp only
    rw [fetchJson_step_server net url 0 2 s2 t2 b2 h2 hs2]
    dsimp only
    rw [fetchJson_exhausted net url 3 s3 t3 b3 h3 hs3]
    dsimp only
    decide
  · rw [postJson_step_server net url 2 0 s0 t0 b0 h0 hs0]
    dsimp only
    rw [postJson_step_server net url 1 1 s1 t1 b1 h1 hs1]
    dsimp only
    rw [postJson_step_server net url 0 2 s2 t2 b2 h2 hs2]
    dsimp only
    rw [postJson_exhausted net url 3 s3 t3 b3 h3 hs3]
    dsimp only
    decide

/-- Claim `C2` (witness): the backoff delays against a permanently-500 upstream
with the default budget of 3. -/
theorem backoff_delays_default_witness :
    (fetchJson (fun _ => NetResponse.http 500 "Internal Server Error" "")
        "https://u" 3 0).delays = [1000, 2000, 3000] ∧
    (postJson (fun _ => NetResponse.http 500 "Internal Server Error" "")
        "https://u" 3 0).delays = [1000, 2000, 4000] :=
  backoff_delays_default _ "https://u"
    (fun _ => ⟨500, "Internal Server Error", "", rfl, by omega⟩)

/-- Claim `C3`: a 429 on the first attempt makes both `fetchJson` and `postJson`
fail immediately with the RateLimited `ApiError` carrying status 429 and the
URL, after exactly one network attempt, regardless of retries remaining. -/
theorem rateLimited_immediate (net : Nat → NetResponse) (url : String)
    (retries attempt : Nat) (t b : String)
    (hnet : net attempt = NetResponse.http 429 t b) :
    fetchJson net url retries attempt =
      ⟨1, [], FetchOutcome.apiError ⟨rateLimitMsg, some 429, some url⟩⟩ ∧
    postJson net url retries attempt =
      ⟨1, [], FetchOutcome.apiError ⟨rateLimitMsg, some 429, some url⟩⟩ :=
  ⟨fetchJson_rateLimited net url retries attempt t b hnet,
    postJson_rateLimited net url retries attempt t b hnet⟩

/-- Claim `C3` (witness): a concrete 429 first response with 3 retries left. -/
theorem rateLimited_immediate_witness :
    fetchJson (fun _ => NetResponse.http 429 "Too Many Requests" "") "https://u" 3 0 =
      ⟨1, [], FetchOutcome.apiError ⟨rateLimitMsg, some 429, some "https://u"⟩⟩ ∧
    postJson (fun _ => NetResponse.http 429 "Too Many Requests" "") "https://u" 3 0 =
      ⟨1, [], FetchOutcome.apiError ⟨rateLimitMsg, some 429, some "https://u"⟩⟩ :=
  rateLimited_immediate _ "https://u" 3 0 "Too Many Requests" "" rfl

/-- Claim `C4`: each attempt is bounded by the 10-second (10000 ms) cancellation
signal, and a tripped signal is terminal: the call fails with the Timeout
`ApiError` after exactly one attempt, even when retries remain, for both
`fetchJson` and `postJson`. -/
theorem timeout_terminal (net : Nat → NetResponse) (url : String)
    (retries attempt : Nat) (hnet : net attempt = NetResponse.abort) :
    timeoutMs = 10000 ∧
    fetchJson net url retries attempt =
      ⟨1, [], FetchOutcome.apiError ⟨timeoutMsg url, some 0, some url⟩⟩ ∧
    postJson net url retries attempt =
      ⟨1, [], FetchOutcome.apiError ⟨timeoutMsg url, some 0, some url⟩⟩ :=
  ⟨rfl, fetchJson_abort net url retries attempt hnet,
    postJson_abort net url retries attempt hnet⟩

/-- Claim `C4` (witness): a concrete aborted first attempt with 3 retries left. -/
theorem timeout_terminal_witness :
    timeoutMs = 10000 ∧
    fetchJson (fun _ => NetResponse.abort) "https://u" 3 0 =
      ⟨1, [], FetchOutcome.apiError
        ⟨timeoutMsg "https://u", some 0, some "https://u"⟩⟩ ∧
    postJson (fun _ => NetResponse.abort) "https://u" 3 0 =
      ⟨1, [], FetchOutcome.apiError
        ⟨timeoutMsg "https://u", some 0, some "https://u"⟩⟩ :=
  timeout_terminal _ "https://u" 3 0 rfl

/-- Claim `C8`: a timeout failure of `fetchJson`/`postJson` carries
`statusCode = some 0` (not `none`, not an HTTP status) and
`endpoint = some url`; conversely, when every HTTP response in the run has a
real (≥ 100) status, an `ApiError` with `statusCode = some 0` can only stem
from a tripped abort signal — so callers distinguish timeouts by
`statusCode` alone. -/
theorem timeout_statusCode_zero (net : Nat → NetResponse) (url : String)
    (retries attempt : Nat) :
    (net attempt = NetResponse.abort →
      (fetchJson net url retries attempt).outcome =
        FetchOutcome.apiError ⟨timeoutMsg url, some 0, some url⟩ ∧
      (postJson net url retries attempt).outcome =
        FetchOutcome.apiError ⟨timeoutMsg url, some 0, some url⟩) ∧
    ((∀ n s t b, net n = NetResponse.http s t b → 100 ≤ s) →
      ∀ e, (fetchJson net url retries attempt).outcome = FetchOutcome.apiError e →
        e.statusCode = some 0 → ∃ n, net n = NetResponse.abort) := by
  constructor
  · intro h
    rw [fetchJson_abort net url retries attempt h,
      postJson_abort net url retries attempt h]
    exact ⟨rfl, rfl⟩
  · intro H e hout h0
    exact fetchJson_statusZero_means_abort net url retries attempt H e hout h0

/-- A network on which every attempt's cancellation signal trips. -/
def alwaysAbort (n : Nat) : NetResponse := NetResponse.abort

/-- Claim `C8` (witness): a run whose first attempt aborts produces the
statusCode-0 Timeout error, and from it the abort attempt is recovered. -/
theorem timeout_statusCode_zero_witness :
    (fetchJson alwaysAbort "https://u" 3 0).outcome =
      FetchOutcome.apiError
        ⟨timeoutMsg "https://u", some 0, some "https://u"⟩ ∧
    (postJson alwaysAbort "https://u" 3 0).outcome =
      FetchOutcome.apiError
        ⟨timeoutMsg "https://u", some 0, some "https://u"⟩ ∧
    (∃ n, alwaysAbort n = NetResponse.abort) := by
  obtain ⟨h1, h2⟩ := timeout_statusCode_zero alwaysAbort "https://u" 3 0
  refine ⟨(h1 rfl).1, (h1 rfl).2, ?_⟩
  exact h2 (fun n s t b h => by simp [alwaysAbort] at h)
    ⟨timeoutMsg "https://u", some 0, some "https://u"⟩ (h1 rfl).1 rfl

/-! ## URL construction (`buildUrl` in `apiClient.ts`)

`Params = Record<string, string | number | boolean | string[] | undefined>`.
`buildUrl` parses `${base}${path}` with `new URL` and then walks the entries:
`undefined` values are skipped, arrays are `searchParams.append`ed element by
element, scalars are `searchParams.set`.  The WHATWG `URL`/`URLSearchParams`
behaviour used by the source is embedded directly: `set` replaces the first
occurrence of the key and deletes the others (appending if absent), `append`
adds at the end, and `toString` serialises the pairs
application/x-www-form-urlencoded (safe chars kept, space as `+`, everything
else percent-encoded as UTF-8 bytes), joined with `&` after a `?` that is
omitted when there are no pairs.  `new URL` on an already-normalised absolute
base and path leaves `${base}${path}` unchanged, so it is modelled as
concatenation. -/

/-- One value of the `Params` record type of `apiClient.ts`. -/
inductive ParamValue where
  | undef
  | str (s : String)
  | num (n : Int)
  | bool (b : Bool)
  | arr (vs : List String)
deriving Repr, DecidableEq

/-- JavaScript `String(value)` on a `Params` value. -/
def jsString : ParamValue → String
  | ParamValue.undef => "undefined"
  | ParamValue.str s => s
  | ParamValue.num n => toString n
  | ParamValue.bool b => if b then "true" else "false"
  | ParamValue.arr vs => String.intercalate "," vs

/-- The `URLSearchParams.append`: add the pair at the end. -/
def spAppend (q : List (String × String)) (k v : String) :
    List (String × String) := q ++ [(k, v)]

/-- The `URLSearchParams.set`: replace the value of the first pair with this key
and delete any further pairs with it; append if the key is absent. -/
def spSet : List (String × String) → String → String → List (String × String)
  | [], k, v => [(k, v)]
  | (k', v') :: rest, k, v =>
    if k' = k then (k', v) :: (rest.filter fun p => p.1 ≠ k)
    else (k', v') :: spSet rest k v

/-- The body of `buildUrl`'s `for (const [key, value] of Object.entries)`
loop: skip `undefined`, `append` each array element, `set` scalars. -/
def applyParam (q : List (String × String)) (kv : String × ParamValue) :
    List (String × String) :=
  match kv.2 with
  | ParamValue.undef => q
  | ParamValue.arr vs => vs.foldl (fun acc v => spAppend acc kv.1 v) q
  | v => spSet q kv.1 (jsString v)

/-- The search-parameter list accumulated by `buildUrl` over the entries of
`params`, in insertion order. -/
def buildQuery (params : List (String × ParamValue)) : List (String × String) :=
  params.foldl applyParam []

/-- UTF-8 bytes of a code point. -/
def utf8Bytes (n : Nat) : List Nat :=
  if n < 0x80 then [n]
  else if n < 0x800 then [0xC0 + n / 0x40, 0x80 + n % 0x40]
  else if n < 0x10000 then
    [0xE0 + n / 0x1000, 0x80 + (n / 0x40) % 0x40, 0x80 + n % 0x40]
  else
    [0xF0 + n / 0x40000, 0x80 + (n / 0x1000) % 0x40,
      0x80 + (n / 0x40) % 0x40, 0x80 + n % 0x40]

/-- Upper-case hexadecimal digit. -/
def hexDigit (n : Nat) : Char :=
  if n < 10 then Char.ofNat ('0'.toNat + n) else Char.ofNat ('A'.toNat + n - 10)

/-- The `%XX` escape of one byte. -/
def percentByte (b : Nat) : String :=
  String.mk ['%', hexDigit (b / 16), hexDigit (b % 16)]

/-- Characters serialised verbatim by application/x-www-form-urlencoded. -/
def formSafe (c : Char) : Bool :=
  c.isAlphanum || c = '*' || c = '-' || c = '.' || c = '_'

/-- application/x-www-form-urlencoded serialisation of one string. -/
def formEncode (s : String) : String :=
  String.join (s.toList.map fun c =>
    if formSafe c then String.mk [c]
    else if c = ' ' then "+"
    else String.join ((utf8Bytes c.toNat).map percentByte))

/-- The `URLSearchParams.toString`: `k=v` pairs joined with `&`. -/
def renderQuery (q : List (String × String)) : String :=
  String.intercalate "&" (q.map fun p => formEncode p.1 ++ "=" ++ formEncode p.2)

/-- The `buildUrl(base, path, params)` from `apiClient.ts`. -/
def buildUrl (base path : String) (params : List (String × ParamValue)) :
    String :=
  let q := buildQuery params
  base ++ path ++ (if q.isEmpty then "" else "?" ++ renderQuery q)

/-- Number of pairs of a search-parameter list carrying a given key. -/
def keyCount (q : List (String × String)) (k : String) : Nat :=
  q.countP fun p => p.1 = k

/-- The `undefined`-valued entries leave the accumulated parameter list
untouched: building from the filtered entry list is the same. -/
theorem foldl_applyParam_filter (ps : List (String × ParamValue))
    (acc : List (String × String)) :
    ps.foldl applyParam acc =
      (ps.filter fun p => p.2 ≠ ParamValue.undef).foldl applyParam acc := by
  induction ps generalizing acc with
  | nil => rfl
  | cons p ps ih =>
      simp only [List.foldl_cons, List.filter_cons]
      by_cases h : p.2 = ParamValue.undef
      · have hskip : applyParam acc p = acc := by
          unfold applyParam
          rw [h]
        simp [h, hskip, ih]
      · simp [h, ih]

/-- The `spSet` leaves exactly one pair with the written key. -/
theorem keyCount_spSet (q : List (String × String)) (k v : String) :
    keyCount (spSet q k v) k = 1 := by
  induction q with
  | nil => simp [keyCount, spSet]
  | cons p rest ih =>
      obtain ⟨k', v'⟩ := p
      by_cases h : k' = k
      · subst h
        have hz : ((rest.filter fun p => p.1 ≠ k').countP fun p => p.1 = k') = 0 := by
          rw [List.countP_eq_zero]
          intro a ha
          have := List.of_mem_filter ha
          simpa using this
        simp [spSet, keyCount, List.countP_cons, hz]
      · simp only [spSet, if_neg h]
        simp [keyCount, List.countP_cons, h] at ih ⊢
        exact ih

/-- Array values are appended one by one as repeated same-named
parameters, in order, after the existing pairs. -/
theorem applyParam_arr (q : List (String × String)) (k : String)
    (vs : List String) :
    applyParam q (k, ParamValue.arr vs) = q ++ vs.map fun v => (k, v) := by
  show vs.foldl (fun acc v => spAppend acc k v) q = _
  induction vs generalizing q with
  | nil => simp
  | cons v vs ih =>
      simp only [List.foldl_cons, List.map_cons]
      rw [ih, spAppend, List.append_assoc]
      rfl

/-- Claim `C5`: `buildUrl` omits absent (`undefined`) values entirely, sets
scalars exactly once, appends sequence values as repeated same-named
parameters, and on the spec's example produces the single well-formed
absolute URL `https://example.com/search?q=nurse&limit=10&tags=a&tags=b`
with no `missing` key. -/
theorem buildUrl_spec :
    buildUrl "https://example.com" "/search"
        [("q", ParamValue.str "nurse"), ("limit", ParamValue.num 10),
         ("tags", ParamValue.arr ["a", "b"]), ("missing", ParamValue.undef)] =
      "https://example.com/search?q=nurse&limit=10&tags=a&tags=b" ∧
    (∀ ps : List (String × ParamValue),
      buildQuery ps = buildQuery (ps.filter fun p => p.2 ≠ ParamValue.undef)) ∧
    (∀ (q : List (String × String)) (k : String) (vs : List String),
      applyParam q (k, ParamValue.arr vs) = q ++ vs.map fun v => (k, v)) ∧
    (∀ (q : List (String × String)) (k v : String),
      keyCount (spSet q k v) k = 1) :=
  ⟨by decide, fun ps => foldl_applyParam_filter ps [], applyParam_arr,
    keyCount_spSet⟩

/-- Claim `C9`: `buildUrl` omits a parameter iff its value is strictly
`undefined` or an empty array contributing no occurrence; the empty string,
the number 0 and the boolean false are all emitted (`key=`, `key=0`,
`key=false`), as on the concrete example. -/
theorem buildUrl_omit_iff_undefined :
    (∀ (k : String) (v : ParamValue),
      buildQuery [(k, v)] = [] ↔
        (v = ParamValue.undef ∨ v = ParamValue.arr [])) ∧
    buildUrl "https://example.com" "/p"
        [("a", ParamValue.str ""), ("b", ParamValue.num 0),
         ("c", ParamValue.bool false), ("d", ParamValue.arr []),
         ("e", ParamValue.undef)] =
      "https://example.com/p?a=&b=0&c=false" := by
  constructor
  · intro k v
    cases v with
    | undef => simp [buildQuery, applyParam]
    | str s => simp [buildQuery, applyParam, spSet]
    | num n => simp [buildQuery, applyParam, spSet]
    | bool b => simp [buildQuery, applyParam, spSet]
    | arr vs =>
        have h := applyParam_arr [] k vs
        simp only [buildQuery, List.foldl_cons, List.foldl_nil, h]
        simp
  · decide

/-- Claim `C9` (witness): a strictly `undefined` value is omitted while the empty
string is emitted. -/
theorem buildUrl_omit_iff_undefined_witness :
    buildQuery [("x", ParamValue.undef)] = [] ∧
    ¬ buildQuery [("x", ParamValue.str "")] = [] :=
  ⟨(buildUrl_omit_iff_undefined.1 "x" ParamValue.undef).2 (Or.inl rfl),
    fun h => by
      have := (buildUrl_omit_iff_undefined.1 "x" (ParamValue.str "")).1 h
      simp at this⟩

/-! ## Formatting layer and taxonomy tool handlers

JS strings of the formatting layer are `List Char`; `slice(0, n)` is
`List.take n`.  A JS error observed by a handler's `catch` is its message
plus the `statusCode` property when present (`ApiError`s), `none` for
transport errors without the property; both are `Error` instances, so the
`err instanceof Error` test of the handlers is always true. -/

/-- A JavaScript string as seen by the formatting layer. -/
abbrev JStr := List Char

/-- The `CHARACTER_LIMIT` from `constants.ts`. -/
def CHARACTER_LIMIT : Nat := 50000

/-- The truncation marker (`"\n...[trunkerat pga längd]"`) appended by
`truncateIfNeeded` and `formatJobAdFull`. -/
def TRUNC_MARKER : JStr := "\n...[trunkerat pga längd]".toList

/-- The `truncateIfNeeded(text)` from the formatters module: slice to
`CHARACTER_LIMIT` and append the marker when the text is longer. -/
def truncateIfNeeded (text : JStr) : JStr :=
  if CHARACTER_LIMIT < text.length then
    text.take CHARACTER_LIMIT ++ TRUNC_MARKER
  else text

/-- A `TaxonomyApiResponse` item (`types.ts`): `taxonomy/id`,
`taxonomy/type`, `taxonomy/preferred-label` are required,
`taxonomy/deprecated` and `taxonomy/definition` optional. -/
structure TaxonomyApiItem where
  taxonomyId : JStr
  taxonomyType : JStr
  preferredLabel : JStr
  deprecated : Option Bool
  definition : Option JStr
deriving Repr, DecidableEq

/-- A `TaxonomyConcept` as produced by the handlers' `mapItem`. -/
structure TaxonomyConcept where
  conceptId : JStr
  type : JStr
  preferredLabel : JStr
  deprecated : Option Bool
  definition : Option JStr
deriving Repr, DecidableEq

/-- The `mapItem` of `taxonomyExtended.ts`. -/
def mapItem (item : TaxonomyApiItem) : TaxonomyConcept :=
  ⟨item.taxonomyId, item.taxonomyType, item.preferredLabel,
    item.deprecated, item.definition⟩

/-- The `ConceptDetail`: the base concept plus its relation lists as set by the
`af_get_taxonomy_concept` handler. -/
structure ConceptDetail where
  conceptId : JStr
  type : JStr
  preferredLabel : JStr
  deprecated : Option Bool
  definition : Option JStr
  broader : List TaxonomyConcept
  narrower : List TaxonomyConcept
  related : List TaxonomyConcept
deriving Repr, DecidableEq

/-- A JS error as observed by a tool handler's `catch`: the message plus
the `statusCode` property when present. -/
structure JsError where
  message : JStr
  statusCode : Option Nat
deriving Repr, DecidableEq

/-- The `Promise.all` over the four taxonomy fetches: all fulfil, or the first
rejection (in array order) propagates. -/
def promiseAll4 {α : Type} (r1 r2 r3 r4 : Except JsError α) :
    Except JsError (α × α × α × α) := do
  let a ← r1
  let b ← r2
  let c ← r3
  let d ← r4
  pure (a, b, c, d)

/-- The response of the `af_get_taxonomy_concept` handler: display text,
`isError` flag, and the `structuredContent.concept` payload if any. -/
structure ConceptToolResult where
  text : JStr
  isError : Bool
  structuredConcept : Option ConceptDetail
deriving Repr, DecidableEq

/-- The `"\n".join`-style join of the handlers' `lines` arrays. -/
def joinLines : List JStr → JStr
  | [] => []
  | [l] => l
  | l :: ls => l ++ '\n' :: joinLines ls

/-- The `Taxonomy concept with ID "..." not found.` -/
def conceptNotFoundText (conceptId : JStr) : JStr :=
  "Taxonomy concept with ID \"".toList ++ conceptId ++ "\" not found.".toList

/-- The `An error occurred: ...` -/
def errorOccurredText (msg : JStr) : JStr :=
  "An error occurred: ".toList ++ msg

/-- The markdown `lines` array built by the `af_get_taxonomy_concept`
handler before `join("\n")`, mirroring the JS truthiness tests:
`concept.deprecated` is truthy iff `some true`, `concept.definition` iff
present and non-empty, `concept.broader?.length` iff the list is
non-empty. -/
def conceptLines (c : ConceptDetail) : List JStr :=
  let ls := ["## ".toList ++ c.preferredLabel,
    "**ID:** `".toList ++ c.conceptId ++ "`".toList,
    "**Type:** ".toList ++ c.type]
  let ls := ls ++
    (if c.deprecated = some true then ["⚠️ **Deprecated concept**".toList]
     else [])
  let ls := ls ++
    (match c.definition with
     | some d =>
         if d = [] then [] else ["\n**Definition:** ".toList ++ d]
     | none => [])
  let ls := ls ++
    (if c.broader.length ≠ 0 then
      "\n**Parent (broader):**".toList ::
        c.broader.map (fun b =>
          "  - ".toList ++ b.preferredLabel ++ " (`".toList ++ b.conceptId ++
            "`)".toList)
     else [])
  let ls := ls ++
    (if c.narrower.length ≠ 0 then
      ("\n**Children (narrower) (".toList ++
          (toString c.narrower.length).toList ++ "):**".toList) ::
        ((c.narrower.take 20).map (fun n =>
            "  - ".toList ++ n.preferredLabel ++ " (`".toList ++ n.conceptId ++
              "`)".toList) ++
          (if 20 < c.narrower.length then
            ["  ...and ".toList ++ (toString (c.narrower.length - 20)).toList ++
              " more".toList]
           else []))
     else [])
  ls ++
    (if c.related.length ≠ 0 then
      "\n**Related:**".toList ::
        (c.related.take 10).map (fun r =>
          "  - ".toList ++ r.preferredLabel ++ " (`".toList ++ r.conceptId ++
            "`)".toList)
     else [])

/-- The `af_get_taxonomy_concept` handler of `taxonomyExtended.ts`, given
the outcomes of its four parallel taxonomy fetches (the concept and its
broader, narrower and related concepts).  On any rejection the `catch`
returns the not-found text for a 404 `statusCode` and the error text
otherwise; on fulfilment of all four, an empty concept list is not-found,
else the concept detail is built and the joined markdown is sliced to
`CHARACTER_LIMIT`. -/
def getConceptHandler (conceptId : JStr)
    (r1 r2 r3 r4 : Except JsError (List TaxonomyApiItem)) : ConceptToolResult :=
  match promiseAll4 r1 r2 r3 r4 with
  | Except.error e =>
      if e.statusCode = some 404 then ⟨conceptNotFoundText conceptId, false, none⟩
      else ⟨errorOccurredText e.message, true, none⟩
  | Except.ok (conceptRes, broaderRes, narrowerRes, relatedRes) =>
      match conceptRes with
      | [] => ⟨conceptNotFoundText conceptId, false, none⟩
      | item0 :: _ =>
          let b := mapItem item0
          let concept : ConceptDetail :=
            ⟨b.conceptId, b.type, b.preferredLabel, b.deprecated, b.definition,
              broaderRes.map mapItem, narrowerRes.map mapItem,
              relatedRes.map mapItem⟩
          ⟨(joinLines (conceptLines concept)).take CHARACTER_LIMIT, false,
            some concept⟩

/-- The `structuredContent` of `af_list_taxonomy_types`. -/
structure ListTypesStructured where
  type : JStr
  count : Nat
  concepts : List TaxonomyConcept
deriving Repr, DecidableEq

/-- The response of the `af_list_taxonomy_types` handler. -/
structure ListTypesToolResult where
  text : JStr
  isError : Bool
  structured : Option ListTypesStructured
deriving Repr, DecidableEq

/-- The `No taxonomy concepts of type "..." found.` -/
def noTypesText (typeArg : JStr) : JStr :=
  "No taxonomy concepts of type \"".toList ++ typeArg ++ "\" found.".toList

/-- The `No concepts found for type "...".` -/
def noConceptsText (typeArg : JStr) : JStr :=
  "No concepts found for type \"".toList ++ typeArg ++ "\".".toList

/-- The `af_list_taxonomy_types` handler of `taxonomyExtended.ts`, given
the fetch outcome: a 404 rejection becomes the no-types text, any other
rejection is rethrown (`Except.error`); on fulfilment the items are mapped,
an empty list yields the no-concepts text, otherwise deprecated concepts
are filtered out unless `include_deprecated`, and the structured content
carries the filtered list and its length as `count`. -/
def listTypesHandler (typeArg : JStr) (includeDeprecated : Bool)
    (r : Except JsError (List TaxonomyApiItem)) :
    Except JsError ListTypesToolResult :=
  match r with
  | Except.error e =>
      if e.statusCode = some 404 then
        Except.ok ⟨noTypesText typeArg, false, none⟩
      else Except.error e
  | Except.ok response =>
      let concepts := response.map mapItem
      if concepts.length = 0 then
        Except.ok ⟨noConceptsText typeArg, false, none⟩
      else
        let active := if includeDeprecated then concepts
          else concepts.filter fun c => ¬ (c.deprecated = some true)
        let lines := active.map fun c =>
          "- **".toList ++ c.preferredLabel ++ "** — `".toList ++
            c.conceptId ++ "`".toList
        let header := "**".toList ++ (toString active.length).toList ++
          "** concepts of type \"".toList ++ typeArg ++ "\":\n\n".toList
        Except.ok ⟨(header ++ joinLines lines).take CHARACTER_LIMIT, false,
          some ⟨typeArg, active.length, active⟩⟩

/-- Both arms of the `catch` of `af_get_taxonomy_concept` (not-found for a
404, error text otherwise) carry no structured concept. -/
theorem rejected_structured_none (cid : JStr) (f : JsError) :
    ((if f.statusCode = some 404 then
        (⟨conceptNotFoundText cid, false, none⟩ : ConceptToolResult)
      else ⟨errorOccurredText f.message, true, none⟩)).structuredConcept =
      none := by
  split <;> rfl

/-- Claim `C7`: the `af_get_taxonomy_concept` handler aggregates its four
parallel fetches all-or-nothing: if any of the four rejects, no structured
concept is produced (the operation fails or reports not-found as a whole),
and only when all four fulfil (with a non-empty concept list) does the
result carry the concept together with all three relation lists, taken from
the broader/narrower/related fetches. -/
theorem getConcept_allOrNothing (conceptId : JStr)
    (r1 r2 r3 r4 : Except JsError (List TaxonomyApiItem)) :
    (∀ e : JsError,
      (r1 = Except.error e ∨ r2 = Except.error e ∨ r3 = Except.error e ∨
        r4 = Except.error e) →
      (getConceptHandler conceptId r1 r2 r3 r4).structuredConcept = none) ∧
    (∀ l1 l2 l3 l4, r1 = Except.ok l1 → r2 = Except.ok l2 →
      r3 = Except.ok l3 → r4 = Except.ok l4 →
      (l1 = [] →
        (getConceptHandler conceptId r1 r2 r3 r4).structuredConcept = none) ∧
      (∀ item0 rest, l1 = item0 :: rest →
        (getConceptHandler conceptId r1 r2 r3 r4).structuredConcept =
          some ⟨item0.taxonomyId, item0.taxonomyType, item0.preferredLabel,
            item0.deprecated, item0.definition,
            l2.map mapItem, l3.map mapItem, l4.map mapItem⟩)) := by
  constructor
  · intro e he
    cases r1 with
    | error f => exact rejected_structured_none conceptId f
    | ok a =>
        cases r2 with
        | error f => exact rejected_structured_none conceptId f
        | ok b =>
            cases r3 with
            | error f => exact rejected_structured_none conceptId f
            | ok c =>
                cases r4 with
                | error f => exact rejected_structured_none conceptId f
                | ok d => rcases he with h | h | h | h <;> simp_all
  · intro l1 l2 l3 l4 h1 h2 h3 h4
    subst h1; subst h2; subst h3; subst h4
    refine ⟨fun h => ?_, fun item0 rest h => ?_⟩
    · subst h
      rfl
    · subst h
      rfl

/-- A sample taxonomy item for witnesses. -/
def sampleItem : TaxonomyApiItem :=
  ⟨"c0".toList, "skill".toList, "Python".toList, none, none⟩

/-- Claim `C7` (witness): with the related-concepts fetch rejected the handler
produces no structured concept, and with all four fulfilled it carries all
three relation lists. -/
theorem getConcept_allOrNothing_witness :
    (getConceptHandler "c0".toList (Except.ok [sampleItem]) (Except.ok [])
        (Except.ok [])
        (Except.error ⟨"boom".toList, none⟩)).structuredConcept = none ∧
    (getConceptHandler "c0".toList (Except.ok [sampleItem]) (Except.ok [])
        (Except.ok []) (Except.ok [sampleItem])).structuredConcept =
      some ⟨sampleItem.taxonomyId, sampleItem.taxonomyType,
        sampleItem.preferredLabel, sampleItem.deprecated, sampleItem.definition,
        ([] : List TaxonomyApiItem).map mapItem,
        ([] : List TaxonomyApiItem).map mapItem,
        [sampleItem].map mapItem⟩ :=
  ⟨(getConcept_allOrNothing "c0".toList (Except.ok [sampleItem])
      (Except.ok []) (Except.ok []) (Except.error ⟨"boom".toList, none⟩)).1
      ⟨"boom".toList, none⟩ (Or.inr (Or.inr (Or.inr rfl))),
    ((getConcept_allOrNothing "c0".toList (Except.ok [sampleItem])
      (Except.ok []) (Except.ok []) (Except.ok [sampleItem])).2
      [sampleItem] [] [] [sampleItem] rfl rfl rfl rfl).2 sampleItem [] rfl⟩

/-- Claim `C10`: whenever `af_list_taxonomy_types` returns a structured result,
its `count` equals the length of its `concepts` array, and with
`include_deprecated = false` no concept in the array has a truthy
`deprecated` flag. -/
theorem listTypes_count_matches (typeArg : JStr) (includeDeprecated : Bool)
    (r : Except JsError (List TaxonomyApiItem)) (res : ListTypesToolResult)
    (st : ListTypesStructured)
    (hok : listTypesHandler typeArg includeDeprecated r = Except.ok res)
    (hst : res.structured = some st) :
    st.count = st.concepts.length ∧
    (includeDeprecated = false →
      ∀ c ∈ st.concepts, ¬ (c.deprecated = some true)) := by
  cases r with
  | error e =>
      by_cases h404 : e.statusCode = some 404
      · simp [listTypesHandler, h404] at hok
        rw [← hok] at hst
        simp at hst
      · simp [listTypesHandler, h404] at hok
  | ok response =>
      by_cases hlen : (response.map mapItem).length = 0
      · simp only [listTypesHandler, if_pos hlen, Except.ok.injEq] at hok
        rw [← hok] at hst
        simp at hst
      · simp only [listTypesHandler, if_neg hlen, Except.ok.injEq] at hok
        rw [← hok] at hst
        simp only [Option.some.injEq] at hst
        subst hst
        refine ⟨rfl, ?_⟩
        intro hid c hc
        rw [hid] at hc
        simp only [if_neg (by simp : ¬ (false = true))] at hc
        have := (List.mem_filter.1 hc).2
        simpa using this

/-- A deprecated sample taxonomy item for witnesses. -/
def sampleDeprecated : TaxonomyApiItem :=
  ⟨"c1".toList, "region".toList, "A".toList, some true, none⟩

/-- An active sample taxonomy item for witnesses. -/
def sampleActive : TaxonomyApiItem :=
  ⟨"c2".toList, "region".toList, "B".toList, none, none⟩

/-- Claim `C10` (witness): listing `region` without deprecated concepts over a
response holding one deprecated and one active concept gives a structured
result whose count matches its single, non-deprecated concept. -/
theorem listTypes_count_matches_witness :
    (⟨"region".toList, 1, [mapItem sampleActive]⟩ : ListTypesStructured).count =
      (⟨"region".toList, 1, [mapItem sampleActive]⟩ :
        ListTypesStructured).concepts.length ∧
    (false = false →
      ∀ c ∈ (⟨"region".toList, 1, [mapItem sampleActive]⟩ :
        ListTypesStructured).concepts, ¬ (c.deprecated = some true)) :=
  listTypes_count_matches "region".toList false
    (Except.ok [sampleDeprecated, sampleActive])
    ⟨"**1** concepts of type \"region\":\n\n- **B** — `c2`".toList, false,
      some ⟨"region".toList, 1, [mapItem sampleActive]⟩⟩
    ⟨"region".toList, 1, [mapItem sampleActive]⟩ rfl rfl

/-- A preferred label of 50001 characters, exceeding the budget. -/
def bigLabel : JStr := List.replicate 50001 'a'

/-- A taxonomy item whose label exceeds the character budget. -/
def bigItem : TaxonomyApiItem :=
  ⟨"x1".toList, "occupation-name".toList, bigLabel, none, none⟩

/-- The concept detail the handler builds from `bigItem` with empty
relation fetches. -/
def bigDetail : ConceptDetail :=
  ⟨"x1".toList, "occupation-name".toList, bigLabel, none, none, [], [], []⟩

/-- The markdown that follows the label line for `bigDetail`. -/
def bigTail : JStr := "\n**ID:** `x1`\n**Type:** occupation-name".toList

/-- The `slice(0, 50000)` of `bigDetail`'s markdown keeps the 3-char
heading prefix and 49997 label characters. -/
theorem bigOut_eq :
    (("## ".toList ++ bigLabel) ++ bigTail).take 50000 =
      "## ".toList ++ List.replicate 49997 'a' := by
  rw [List.take_append_eq_append_take]
  have hA : ("## ".toList ++ bigLabel).length = 50004 := by
    rw [List.length_append, show ("## ".toList).length = 3 from by decide,
      show bigLabel = List.replicate 50001 'a' from rfl,
      List.length_replicate]
  rw [hA, show (50000 : Nat) - 50004 = 0 from by norm_num, List.take_zero,
    List.append_nil]
  rw [List.take_append_eq_append_take]
  rw [List.take_of_length_le (by decide : ("## ".toList).length ≤ 50000)]
  rw [show (50000 : Nat) - ("## ".toList).length = 49997 from by decide]
  rw [show bigLabel = List.replicate 50001 'a' from rfl, List.take_replicate]
  rw [show min 49997 50001 = 49997 from by norm_num]

/-- The truncation marker's closing bracket occurs nowhere in the sliced
output, which consists of `#`, a space and `a`s only. -/
theorem bracket_not_mem_bigOut :
    ']' ∉ "## ".toList ++ List.replicate 49997 'a' := by
  intro hmem
  rcases List.mem_append.1 hmem with h | h
  · exact absurd h (by decide)
  · exact absurd (List.eq_of_mem_replicate h) (by decide)

/-- Claim `C6` (counterexample): on a concept whose formatted markdown exceeds
the 50000-character budget, the `af_get_taxonomy_concept` handler emits a
text block that is truncated (to exactly 50000 characters) but does not end
with the truncation marker: the handler slices without appending it. -/
theorem concept_text_no_marker_counterexample :
    CHARACTER_LIMIT < (joinLines (conceptLines bigDetail)).length ∧
    (getConceptHandler "x1".toList (Except.ok [bigItem]) (Except.ok [])
        (Except.ok []) (Except.ok [])).text.length = CHARACTER_LIMIT ∧
    ¬ TRUNC_MARKER <:+
      (getConceptHandler "x1".toList (Except.ok [bigItem]) (Except.ok [])
        (Except.ok []) (Except.ok [])).text := by
  have hjoin : joinLines (conceptLines bigDetail) =
      ("## ".toList ++ bigLabel) ++ bigTail := rfl
  have htext : (getConceptHandler "x1".toList (Except.ok [bigItem])
      (Except.ok []) (Except.ok []) (Except.ok [])).text =
      (("## ".toList ++ bigLabel) ++ bigTail).take 50000 := rfl
  have hlab : bigLabel.length = 50001 := by
    rw [show bigLabel = List.replicate 50001 'a' from rfl,
      List.length_replicate]
  refine ⟨?_, ?_, ?_⟩
  · rw [hjoin, List.length_append, List.length_append, hlab,
      show ("## ".toList).length = 3 from by decide,
      show bigTail.length = 39 from by decide]
    norm_num [CHARACTER_LIMIT]
  · rw [htext, bigOut_eq, List.length_append,
      show ("## ".toList).length = 3 from by decide, List.length_replicate]
    rfl
  · rw [htext, bigOut_eq]
    intro hsuf
    exact bracket_not_mem_bigOut (hsuf.subset (by decide))

/-- Claim `C6` (amended): text routed through `truncateIfNeeded` is truncated at
50000 characters with the trailing marker appended (output bounded by
50000 plus the marker length, shorter text unchanged), whereas the
`af_get_taxonomy_concept` handler truncates its formatted markdown by a
plain `slice(0, 50000)` with no marker, so its emitted text is bounded by
50000 characters but need not end with the marker. -/
theorem truncation_bounds (t cid : JStr) (item0 : TaxonomyApiItem)
    (rest l2 l3 l4 : List TaxonomyApiItem) :
    (truncateIfNeeded t).length ≤ CHARACTER_LIMIT + TRUNC_MARKER.length ∧
    (CHARACTER_LIMIT < t.length → TRUNC_MARKER <:+ truncateIfNeeded t) ∧
    (¬ CHARACTER_LIMIT < t.length → truncateIfNeeded t = t) ∧
    (getConceptHandler cid (Except.ok (item0 :: rest)) (Except.ok l2)
        (Except.ok l3) (Except.ok l4)).text.length ≤ CHARACTER_LIMIT := by
  refine ⟨?_, ?_, ?_, ?_⟩
  · rw [truncateIfNeeded]
    split
    · rw [List.length_append]
      have := List.length_take_le CHARACTER_LIMIT t
      omega
    · have : t.length ≤ CHARACTER_LIMIT := by omega
      omega
  · intro h
    rw [truncateIfNeeded, if_pos h]
    exact List.suffix_append _ _
  · intro h
    rw [truncateIfNeeded, if_neg h]
  · exact List.length_take_le _ _

/-- Claim `C6` (witness): a 50001-character text gets the marker appended by
`truncateIfNeeded` within the bound, while the handler's emitted text for a
non-empty concept fetch stays within the budget. -/
theorem truncation_bounds_witness :
    (truncateIfNeeded bigLabel).length ≤ CHARACTER_LIMIT + TRUNC_MARKER.length ∧
    TRUNC_MARKER <:+ truncateIfNeeded bigLabel ∧
    (getConceptHandler "c0".toList (Except.ok [sampleItem]) (Except.ok [])
        (Except.ok []) (Except.ok [])).text.length ≤ CHARACTER_LIMIT := by
  obtain ⟨h1, h2, h3, h4⟩ :=
    truncation_bounds bigLabel "c0".toList sampleItem [] [] [] []
  refine ⟨h1, h2 ?_, h4⟩
  rw [show bigLabel = List.replicate 50001 'a' from rfl,
    List.length_replicate]
  norm_num [CHARACTER_LIMIT]

end AfMcp
